import Mathlib

/-!
Verification of the TailUI connection/exit-node reconciliation engine.

The definitions below are a shallow embedding of the Python sources
`src/tailscale_client.py` and `src/gui.py`:

* pure Python functions become Lean functions over the same data;
* Python `dict` values used only through `get`/assignment are modelled as
  association lists whose assignment prepends (lookup-equivalent to the
  overwrite semantics of `dict[k] = v`);
* Python truthiness of strings (`if value:`) is modelled as the string
  being non-empty, and truthiness of `Optional[str]` as `some` of a
  non-empty string;
* wall-clock instants and durations (floats in seconds in the source) are
  modelled as integer milliseconds, so 15.0 s becomes 15000, 1.5 s becomes
  1500, 0.8 s becomes 800 and so on;
* the external CLI runner `_run` and the status fetch are modelled as
  oracles: the value they would return is passed in as an argument.
-/

namespace TailUI

/-- Embedding of Python `str.lower` for a single character (ASCII case
folding, which is what the `BackendState` labels and error messages use). -/
def charLower (c : Char) : Char :=
  if 'A' ≤ c ∧ c ≤ 'Z' then Char.ofNat (c.toNat + 32) else c

/-- Embedding of Python `str.lower` on whole strings. -/
def pyLower (s : String) : String :=
  String.mk (s.data.map charLower)

/-- Device record from `src/tailscale_client.py` (dataclass `Device`).
`hostinfo` is a string-to-string map (the only keys the program reads are
`Hostname` and `DNSName`), modelled as an association list. -/
structure Device where
  name : String
  tailnet_ips : List String
  os : Option String
  online : Bool
  exit_node_option : Bool
  is_exit_node : Bool
  hostinfo : List (String × String)
  device_id : Option String
deriving DecidableEq

/-- Status record from `src/tailscale_client.py` (dataclass `Status`);
the `raw` JSON field is omitted as no claim reads it. -/
structure Status where
  backend_state : String
  self_device : Option Device
  devices : List Device
  exit_nodes : List Device
  connected : Bool
  active_exit_node : Option Device
deriving DecidableEq

/-- Lookup in an association-list dictionary: first matching key wins
(Python `dict.get(key)`). -/
def dictGet : List (String × String) → String → Option String
  | [], _ => none
  | (k, v) :: rest, key => if key = k then some v else dictGet rest key

/-- Python truthiness filter on an optional string: `some v` survives only
when `v` is non-empty (`if value:` on an `Optional[str]`). -/
def truthy : Option String → Option String
  | some v => if v ≠ "" then some v else none
  | none => none

/-- Embedding of `src/tailscale_client.py` line 177, the tail of
`TailscaleClient.status`:
`connected = backend_state.lower() == 'running' and bool(self_device and self_device.tailnet_ips)`. -/
def status_connected (backend_state : String) (self_device : Option Device) : Bool :=
  (pyLower backend_state == "running") &&
    (match self_device with
     | some d => !d.tailnet_ips.isEmpty
     | none => false)

/-- Embedding of the final `Status(...)` construction of
`TailscaleClient.status` (src/tailscale_client.py lines 176-180): the
parsed components are assembled into a `Status` whose `connected` field is
computed by `status_connected`, never supplied independently. -/
def build_status (backend_state : String) (self_device : Option Device)
    (devices exit_nodes : List Device) (active_exit_node : Option Device) : Status :=
  { backend_state := backend_state
    self_device := self_device
    devices := devices
    exit_nodes := exit_nodes
    connected := status_connected backend_state self_device
    active_exit_node := active_exit_node }

/-- C1: for every Status produced by the status() operation, `connected` is
true iff the backend run-state equals the running label compared
case-insensitively and the self device exists with at least one tailnet
address; moreover `connected` depends on nothing but those two inputs. -/
theorem status_connected_invariant (b : String) (s : Option Device)
    (ds es : List Device) (a : Option Device) :
    ((build_status b s ds es a).connected = true ↔
      (pyLower b = "running" ∧ ∃ d, s = some d ∧ d.tailnet_ips ≠ [])) ∧
    (∀ (ds₂ es₂ : List Device) (a₂ : Option Device),
      (build_status b s ds₂ es₂ a₂).connected = (build_status b s ds es a).connected) := by
  constructor
  · simp only [build_status, status_connected, Bool.and_eq_true, beq_iff_eq]
    cases s with
    | none => simp
    | some d =>
      cases h : d.tailnet_ips with
      | nil => simp [List.isEmpty, h]
      | cons x xs => simp [List.isEmpty, h]
  · intro ds₂ es₂ a₂
    rfl

/-- Concrete instance of the C1 invariant: a running backend with one self
address yields a connected snapshot. -/
theorem status_connected_invariant_witness :
    (build_status "Running"
        (some ⟨"pc", ["100.64.0.1"], none, true, false, false, [], some "d0"⟩)
        [] [] none).connected = true :=
  (status_connected_invariant "Running"
      (some ⟨"pc", ["100.64.0.1"], none, true, false, false, [], some "d0"⟩)
      [] [] none).1.mpr
    ⟨by decide, ⟨"pc", ["100.64.0.1"], none, true, false, false, [], some "d0"⟩, rfl, by decide⟩

/-- First non-empty tailnet address, embedding the
`for ip in device.tailnet_ips: if ip: return str(ip)` loop of
`MainWindow._preferred_exit_node_argument` (src/gui.py lines 824-827). -/
def first_truthy_ip : List String → Option String
  | [] => none
  | ip :: rest => if ip ≠ "" then some ip else first_truthy_ip rest

/-- Embedding of `MainWindow._preferred_exit_node_argument`
(src/gui.py lines 815-830): metadata `Hostname`, then `DNSName`, then the
device name, then the first non-empty tailnet address, then the stable
device id, each taken only when truthy; `none` when all are absent. -/
def preferred_exit_node_argument (d : Device) : Option String :=
  match truthy (dictGet d.hostinfo "Hostname") with
  | some v => some v
  | none =>
  match truthy (dictGet d.hostinfo "DNSName") with
  | some v => some v
  | none =>
  if d.name ≠ "" then some d.name
  else
    match first_truthy_ip d.tailnet_ips with
    | some ip => some ip
    | none => truthy d.device_id

/-- First present (non-empty) value in a list of optional candidates. -/
def first_present : List (Option String) → Option String
  | [] => none
  | o :: rest =>
    match truthy o with
    | some v => some v
    | none => first_present rest

/-- Restatement of the spec's `preferredArgument` contract: the first
present value among `Hostname` metadata, `DNSName` metadata, device name,
the tailnet addresses in order, and the stable id. -/
def preferred_argument_spec (d : Device) : Option String :=
  first_present
    ([dictGet d.hostinfo "Hostname", dictGet d.hostinfo "DNSName", some d.name] ++
      d.tailnet_ips.map some ++ [d.device_id])

lemma first_truthy_ip_eq_first_present (ips : List String) :
    first_truthy_ip ips = first_present (ips.map some) := by
  induction ips with
  | nil => rfl
  | cons ip rest ih =>
    simp only [List.map_cons, first_truthy_ip, first_present, truthy]
    by_cases h : ip = ""
    · simp [h, ih]
    · simp [h]

lemma first_present_append (xs ys : List (Option String)) :
    first_present (xs ++ ys) =
      match first_present xs with
      | some v => some v
      | none => first_present ys := by
  induction xs with
  | nil => rfl
  | cons o rest ih =>
    simp only [List.cons_append, first_present]
    cases truthy o with
    | some v => rfl
    | none => exact ih

lemma first_present_single (o : Option String) :
    first_present [o] = truthy o := by
  cases o with
  | none => rfl
  | some v =>
    simp only [first_present, truthy]
    by_cases h : v = "" <;> simp [h]

/-- C7: `preferredArgument` returns, in strict priority order, the first
present value among the `Hostname` metadata key, the `DNSName` metadata
key, the device name, the first non-empty tailnet address and the stable
device id, and `none` when all are absent; in particular a device with
`Hostinfo = {Hostname: "exit-host"}` and name `"alias"` yields
`"exit-host"`. -/
theorem preferred_exit_node_argument_spec (d : Device) :
    preferred_exit_node_argument d = preferred_argument_spec d ∧
    preferred_exit_node_argument
      ⟨"alias", [], none, true, true, false, [("Hostname", "exit-host")], none⟩ =
      some "exit-host" := by
  constructor
  · unfold preferred_exit_node_argument preferred_argument_spec
    have hlist : ([dictGet d.hostinfo "Hostname", dictGet d.hostinfo "DNSName", some d.name] ++
        d.tailnet_ips.map some ++ [d.device_id]) =
        dictGet d.hostinfo "Hostname" :: dictGet d.hostinfo "DNSName" :: some d.name ::
          (d.tailnet_ips.map some ++ [d.device_id]) := by simp
    rw [hlist]
    simp only [first_present]
    cases truthy (dictGet d.hostinfo "Hostname") with
    | some v => rfl
    | none =>
      cases truthy (dictGet d.hostinfo "DNSName") with
      | some v => rfl
      | none =>
        dsimp only
        rw [first_present_append, first_present_single]
        by_cases h : d.name = ""
        · have hname : truthy (some d.name) = none := by simp [truthy, h]
          simp only [first_present, hname, h, ne_eq, not_true_eq_false, if_false,
            first_truthy_ip_eq_first_present]
          cases first_present (d.tailnet_ips.map some) <;> rfl
        · have hname : truthy (some d.name) = some d.name := by simp [truthy, h]
          simp [first_present, hname, h]
  · decide

/-- Embedding of `MainWindow._exit_aliases_for_device` (src/gui.py lines
789-805): the device name, stable id, non-empty tailnet addresses and
truthy `Hostname`/`DNSName` metadata values. The source collects them into
a Python set; only membership matters downstream, so a list is used. -/
def exit_aliases_for_device (d : Device) : List String :=
  (if d.name ≠ "" then [d.name] else []) ++
  (match truthy d.device_id with | some i => [i] | none => []) ++
  d.tailnet_ips.filter (fun ip => ip ≠ "") ++
  (match truthy (dictGet d.hostinfo "Hostname") with | some v => [v] | none => []) ++
  (match truthy (dictGet d.hostinfo "DNSName") with | some v => [v] | none => [])

/-- Association-list model of the Python dict assignment
`self._exit_alias_map[alias] = command_value`: prepending an entry is
lookup-equivalent to overwriting, since `dictGet` takes the first match. -/
def dictSet (m : List (String × String)) (k v : String) : List (String × String) :=
  (k, v) :: m

/-- Embedding of the alias-map construction in `MainWindow._refresh_exit_nodes`
(src/gui.py lines 747-756): for each eligible-egress device in iteration
order, compute `_preferred_exit_node_argument`; skip the device when it is
absent, otherwise assign every alias of the device to that argument. -/
def build_exit_alias_map (exit_nodes : List Device) : List (String × String) :=
  exit_nodes.foldl
    (fun m device =>
      match preferred_exit_node_argument device with
      | none => m
      | some command_value =>
        (exit_aliases_for_device device).foldl
          (fun m2 a => dictSet m2 a command_value) m)
    []

/-- The argument of the last device in iteration order whose alias list
contains `a` (among devices that have a preferred argument). -/
def last_writer_argument (exit_nodes : List Device) (a : String) : Option String :=
  exit_nodes.foldl
    (fun acc device =>
      match preferred_exit_node_argument device with
      | none => acc
      | some cv => if a ∈ exit_aliases_for_device device then some cv else acc)
    none

lemma dictGet_foldl_dictSet (cv a : String) (as : List String)
    (m : List (String × String)) :
    dictGet (as.foldl (fun m2 al => dictSet m2 al cv) m) a =
      if a ∈ as then some cv else dictGet m a := by
  induction as generalizing m with
  | nil => simp
  | cons al rest ih =>
    rw [List.foldl_cons, ih]
    simp only [dictSet, dictGet, List.mem_cons]
    by_cases hr : a ∈ rest
    · simp [hr]
    · by_cases hal : a = al
      · simp [hr, hal]
      · simp [hr, hal]

lemma dictGet_build_exit_alias_map_general (devs : List Device) (a : String)
    (m : List (String × String)) :
    dictGet
      (devs.foldl
        (fun m device =>
          match preferred_exit_node_argument device with
          | none => m
          | some command_value =>
            (exit_aliases_for_device device).foldl
              (fun m2 al => dictSet m2 al command_value) m)
        m) a =
    devs.foldl
      (fun acc device =>
        match preferred_exit_node_argument device with
        | none => acc
        | some cv => if a ∈ exit_aliases_for_device device then some cv else acc)
      (dictGet m a) := by
  induction devs generalizing m with
  | nil => rfl
  | cons d rest ih =>
    simp only [List.foldl_cons]
    cases preferred_exit_node_argument d with
    | none => exact ih m
    | some cv =>
      dsimp only
      rw [ih, dictGet_foldl_dictSet]

/-- C8 counterexample: two eligible devices sharing the alias `"shared"`;
the alias map resolves `"shared"` to the argument of the second device
(`"argB"`), not of the first (`"argA"`) as first-writer-wins would give. -/
theorem build_exit_alias_map_last_writer_counterexample :
    dictGet
      (build_exit_alias_map
        [⟨"shared", [], none, true, true, false, [("Hostname", "argA")], none⟩,
         ⟨"shared", [], none, true, true, false, [("Hostname", "argB")], none⟩])
      "shared" = some "argB" ∧ ("argB" : String) ≠ "argA" := by
  constructor
  · rfl
  · decide

/-- C8 amended: building the alias map maps, for each eligible device with
a preferred argument, every one of that device's aliases to that argument;
when several eligible devices share an alias, the alias resolves to the
argument of the device appearing last in iteration order (last writer
wins, by Python dict overwrite). -/
theorem build_exit_alias_map_spec (devs : List Device) (a : String) :
    dictGet (build_exit_alias_map devs) a = last_writer_argument devs a := by
  unfold build_exit_alias_map last_writer_argument
  rw [dictGet_build_exit_alias_map_general]
  rfl

/-- Concrete instance of the amended C8 theorem: a single eligible device
maps its own name alias to its preferred argument. -/
theorem build_exit_alias_map_spec_witness :
    dictGet
      (build_exit_alias_map
        [⟨"node-a", ["100.64.0.7"], none, true, true, false, [], some "idA"⟩])
      "node-a" = some "node-a" := by
  rw [build_exit_alias_map_spec]
  rfl

/-- Result of one poll tick of `MainWindow._poll_iteration` (src/gui.py
lines 627-652): either `_finish_transition(error_msg, status_msg)` is
called (and the session ends) or the method returns without finishing and
the session keeps polling. -/
inductive TickResult where
  | finish (errorMsg : Option String) (statusMsg : Option String)
  | continuePolling
deriving DecidableEq

/-- Outcome of the status fetch a poll tick would perform:
`self.client.status()` returns a snapshot or raises `TailscaleError`. -/
inductive FetchOutcome where
  | ok (st : Status)
  | err
deriving DecidableEq

/-- `MainWindow._poll_timeout_sec = 15.0` (src/gui.py line 109), in ms. -/
def poll_timeout_ms : Int := 15000

/-- `MainWindow._disconnect_timeout_sec = 6.0` (src/gui.py line 110), in ms. -/
def disconnect_timeout_ms : Int := 6000

/-- `MainWindow._disconnect_grace_sec = 1.5` (src/gui.py line 111), in ms. -/
def disconnect_grace_ms : Int := 1500

/-- Embedding of `MainWindow._poll_iteration` (src/gui.py lines 627-652).
`elapsed` is `time.time() - self._poll_started_at` and `downElapsed` is
`time.time() - self._down_started_at`, both in ms; `fetch` is the value
the `self.client.status()` call inside the `try` block would produce.
The source checks the client, then the timeout, and only then fetches. -/
def poll_iteration (hasClient : Bool) (target : Bool)
    (elapsed downElapsed : Int) (fetch : FetchOutcome) : TickResult :=
  if !hasClient then
    .finish (some "Brak klienta") none
  else
    let timeoutLimit := if target = false then disconnect_timeout_ms else poll_timeout_ms
    if elapsed > timeoutLimit then
      .finish (some "Przekroczono czas oczekiwania na zmianę stanu") none
    else
      match fetch with
      | .ok st =>
        if st.connected = target then
          .finish none (some (if st.connected then "Połączono" else "Rozłączono"))
        else if target = false ∧ downElapsed ≥ disconnect_grace_ms then
          if pyLower st.backend_state ≠ "running" then
            .finish none (some "Rozłączono (backend zatrzymany)")
          else
            .continuePolling
        else
          .continuePolling
      | .err =>
        if target = false then
          .finish none (some "Rozłączono (status niedostępny)")
        else
          .continuePolling

/-- C2: with target connected and a fetch that always reports
`connected = false`, a tick never converges and finishes as the timeout
error exactly when more than 15 s have elapsed; with target disconnected
and a fetch that always reports a genuinely connected snapshot (whose
backend label is the running one, as `status()` guarantees for connected
snapshots), the corresponding timeout is 6 s instead. -/
theorem poll_iteration_timeouts (elapsed downElapsed : Int) (st : Status) :
    (st.connected = false →
      poll_iteration true true elapsed downElapsed (.ok st) =
        (if elapsed > 15000 then
          .finish (some "Przekroczono czas oczekiwania na zmianę stanu") none
         else .continuePolling)) ∧
    (st.connected = true → pyLower st.backend_state = "running" →
      poll_iteration true false elapsed downElapsed (.ok st) =
        (if elapsed > 6000 then
          .finish (some "Przekroczono czas oczekiwania na zmianę stanu") none
         else .continuePolling)) := by
  constructor
  · intro hconn
    by_cases ht : elapsed > 15000
    · simp [poll_iteration, poll_timeout_ms, ht]
    · simp [poll_iteration, poll_timeout_ms, ht, hconn]
  · intro hconn hback
    by_cases ht : elapsed > 6000
    · simp [poll_iteration, disconnect_timeout_ms, ht]
    · by_cases hg : downElapsed ≥ 1500
      · simp [poll_iteration, disconnect_timeout_ms, disconnect_grace_ms, ht, hg, hconn, hback]
      · simp [poll_iteration, disconnect_timeout_ms, disconnect_grace_ms, ht, hg, hconn]

/-- Concrete instance of the C2 theorem: at 15.2 s elapsed with a
disconnected snapshot, a target-connected session times out; at 6.2 s with
a connected snapshot, a target-disconnected session times out. -/
theorem poll_iteration_timeouts_witness :
    poll_iteration true true 15200 0
        (.ok (build_status "Starting" none [] [] none)) =
      .finish (some "Przekroczono czas oczekiwania na zmianę stanu") none ∧
    poll_iteration true false 6200 6200
        (.ok (build_status "Running"
          (some ⟨"pc", ["100.64.0.1"], none, true, false, false, [], none⟩) [] [] none)) =
      .finish (some "Przekroczono czas oczekiwania na zmianę stanu") none := by
  constructor
  · have h := (poll_iteration_timeouts 15200 0
      (build_status "Starting" none [] [] none)).1 (by decide)
    rw [h]
    decide
  · have h := (poll_iteration_timeouts 6200 6200
      (build_status "Running"
        (some ⟨"pc", ["100.64.0.1"], none, true, false, false, [], none⟩) [] [] none)).2
      (by decide) (by decide)
    rw [h]
    decide

/-- C3 counterexample: at 16 s elapsed a target-connected tick finishes as
the timeout error even though the fetch would have returned a snapshot
whose `connected` matches the target, so the match condition is not
evaluated before the timeout condition and TimedOut can occur on a tick
whose snapshot would have satisfied a convergence condition. -/
theorem poll_iteration_match_first_counterexample :
    poll_iteration true true 16000 0
        (.ok (build_status "Running"
          (some ⟨"pc", ["100.64.0.1"], none, true, false, false, [], none⟩) [] [] none)) =
      .finish (some "Przekroczono czas oczekiwania na zmianę stanu") none ∧
    poll_iteration true true 16000 0
        (.ok (build_status "Running"
          (some ⟨"pc", ["100.64.0.1"], none, true, false, false, [], none⟩) [] [] none)) ≠
      .finish none (some "Połączono") := by
  constructor
  · rfl
  · decide

/-- C3 amended: the timeout condition is evaluated before the status fetch.
On a tick whose elapsed time exceeds the direction's timeout the session
finishes TimedOut without consulting the fetch (the result is independent
of what a fetch would return); on a tick within the timeout a fresh
snapshot is fetched and, when its `connected` equals the target, the
session finishes Converged with a success indication. -/
theorem poll_iteration_timeout_first (target : Bool) (elapsed downElapsed : Int)
    (f₁ f₂ : FetchOutcome) :
    (elapsed > (if target = false then 6000 else 15000) →
      poll_iteration true target elapsed downElapsed f₁ =
        .finish (some "Przekroczono czas oczekiwania na zmianę stanu") none ∧
      poll_iteration true target elapsed downElapsed f₁ =
        poll_iteration true target elapsed downElapsed f₂) ∧
    (∀ st : Status, elapsed ≤ (if target = false then 6000 else 15000) →
      st.connected = target →
      poll_iteration true target elapsed downElapsed (.ok st) =
        .finish none (some (if st.connected then "Połączono" else "Rozłączono"))) := by
  constructor
  · intro ht
    cases target with
    | false =>
      simp only [if_true, eq_self_iff_true] at ht
      constructor <;>
        simp [poll_iteration, disconnect_timeout_ms, ht]
    | true =>
      simp only [Bool.true_eq_false, if_false] at ht
      constructor <;>
        simp [poll_iteration, poll_timeout_ms, ht]
  · intro st ht hconn
    cases target with
    | false =>
      simp only [if_true, eq_self_iff_true] at ht
      simp [poll_iteration, disconnect_timeout_ms, not_lt.mpr ht, hconn]
    | true =>
      simp only [Bool.true_eq_false, if_false] at ht
      simp [poll_iteration, poll_timeout_ms, not_lt.mpr ht, hconn]

/-- Concrete instance of the amended C3 theorem: at 16 s the tick result is
the timeout error whatever the fetch would have returned, and at 3 s a
matching snapshot converges. -/
theorem poll_iteration_timeout_first_witness :
    poll_iteration true true 16000 0 .err =
      .finish (some "Przekroczono czas oczekiwania na zmianę stanu") none ∧
    poll_iteration true true 3000 0
        (.ok (build_status "Running"
          (some ⟨"pc", ["100.64.0.1"], none, true, false, false, [], none⟩) [] [] none)) =
      .finish none (some "Połączono") := by
  constructor
  · exact ((poll_iteration_timeout_first true 16000 0 .err .err).1 (by decide)).1
  · have h := (poll_iteration_timeout_first true 3000 0 .err .err).2
      (build_status "Running"
        (some ⟨"pc", ["100.64.0.1"], none, true, false, false, [], none⟩) [] [] none)
      (by decide) (by decide)
    rw [h]
    decide

/-- C4: on a target-disconnected tick that fetches a snapshot (so within
the 6 s timeout) still reporting `connected = true`, once at least 1.5 s
have elapsed since the down-observed timestamp and the snapshot's backend
run-state is, case-insensitively, not the running label, the tick finishes
Converged (success) even though `connected` has not flipped to false. -/
theorem poll_iteration_disconnect_grace (elapsed downElapsed : Int) (st : Status)
    (htimeout : elapsed ≤ 6000) (hconn : st.connected = true)
    (hgrace : downElapsed ≥ 1500) (hback : pyLower st.backend_state ≠ "running") :
    poll_iteration true false elapsed downElapsed (.ok st) =
      .finish none (some "Rozłączono (backend zatrzymany)") := by
  simp [poll_iteration, disconnect_timeout_ms, disconnect_grace_ms,
    not_lt.mpr htimeout, hconn, hgrace, hback]

/-- Concrete instance of the C4 theorem: a raw snapshot record with
`connected = true` but a stopped backend converges at 2 s of grace. -/
theorem poll_iteration_disconnect_grace_witness :
    poll_iteration true false 2000 2000
        (.ok ⟨"Stopped", none, [], [], true, none⟩) =
      .finish none (some "Rozłączono (backend zatrzymany)") :=
  poll_iteration_disconnect_grace 2000 2000 ⟨"Stopped", none, [], [], true, none⟩
    (by decide) (by decide) (by decide) (by decide)

/-- C5: when the status fetch performed by a poll tick (hence a tick within
the direction's timeout) raises the collaborator's connectivity error, a
target-disconnected session finishes Converged (success) on that tick,
while a target-connected session stays polling: no finish callback fires
and no error surfaces. -/
theorem poll_iteration_fetch_failure (elapsed downElapsed : Int) :
    (elapsed ≤ 6000 →
      poll_iteration true false elapsed downElapsed .err =
        .finish none (some "Rozłączono (status niedostępny)")) ∧
    (elapsed ≤ 15000 →
      poll_iteration true true elapsed downElapsed .err = .continuePolling) := by
  constructor
  · intro ht
    simp [poll_iteration, disconnect_timeout_ms, not_lt.mpr ht]
  · intro ht
    simp [poll_iteration, poll_timeout_ms, not_lt.mpr ht]

/-- Concrete instance of the C5 theorem at 1 s elapsed: a failing fetch
converges the disconnect direction and is tolerated silently in the
connect direction. -/
theorem poll_iteration_fetch_failure_witness :
    poll_iteration true false 1000 0 .err =
      .finish none (some "Rozłączono (status niedostępny)") ∧
    poll_iteration true true 1000 0 .err = .continuePolling :=
  ⟨(poll_iteration_fetch_failure 1000 0).1 (by decide),
   (poll_iteration_fetch_failure 1000 0).2 (by decide)⟩

/-- A Python exception a submitted task may raise, as distinguished by the
two `except` clauses of `Worker.run` (src/gui.py lines 55-63):
a `TailscaleError` or any other `Exception`, each carrying its `str(e)`. -/
inductive PyError where
  | tailscaleError (msg : String)
  | otherError (msg : String)
deriving DecidableEq

/-- The single Qt signal `Worker.run` emits: `finished(result)` on normal
completion or `error(msg)` when the task raised. -/
inductive WorkerSignal (α : Type) where
  | finished (result : α)
  | error (msg : String)
deriving DecidableEq

/-- The message `Worker.run` forwards for a raised exception: `str(e)`
verbatim for a `TailscaleError`, the prefixed interpolation
`f"Nieoczekiwany błąd: {e}"` for any other exception. -/
def str_of_error : PyError → String
  | .tailscaleError m => m
  | .otherError m => "Nieoczekiwany błąd: " ++ m

/-- Embedding of `Worker.run` (src/gui.py lines 55-63): the task's outcome
(`fnResult`) is either a value or a raised exception; exactly one signal
is emitted and no exception escapes. -/
def workerRun {α : Type} (fnResult : Except PyError α) : WorkerSignal α :=
  match fnResult with
  | .error (.tailscaleError m) => .error m
  | .error (.otherError m) => .error ("Nieoczekiwany błąd: " ++ m)
  | .ok result => .finished result

/-- The callback `MainWindow._submit_worker` (src/gui.py lines 132-154)
invokes for a worker signal: `on_success(result)` for `finished`,
`on_error(msg)` for `error`. -/
inductive CallbackCall (α : Type) where
  | onSuccess (result : α)
  | onFailure (msg : String)
deriving DecidableEq

/-- Embedding of the signal wiring of `MainWindow._submit_worker`:
`finished` is routed to the success callback, `error` to the failure
callback, each exactly once per worker. -/
def submit_dispatch {α : Type} (sig : WorkerSignal α) : CallbackCall α :=
  match sig with
  | .finished result => .onSuccess result
  | .error msg => .onFailure msg

/-- C6 counterexample: a task raising `TailscaleError("")` (whose Python
`str` is the empty string) makes the dispatcher invoke `onFailure` with an
empty message, contradicting the claimed non-emptiness. -/
theorem submit_dispatch_empty_message_counterexample :
    submit_dispatch (workerRun (α := Unit) (Except.error (PyError.tailscaleError ""))) =
      CallbackCall.onFailure "" ∧ ("" : String).length = 0 := by
  constructor
  · rfl
  · rfl

/-- C6 amended: for every task, if it raises, `onFailure` is invoked with
the exception's forwarded message — always non-empty for non-TailscaleError
exceptions thanks to the `Nieoczekiwany błąd` prefix, but equal to the
error's own (possibly empty) message for a `TailscaleError` — and
`onSuccess` is never invoked; if it completes, `onSuccess` is invoked with
its result and `onFailure` never; exactly one callback fires (the model
maps each task outcome to a single `CallbackCall`) and the exception never
escapes the dispatcher. -/
theorem submit_dispatch_spec (α : Type) (fnResult : Except PyError α) :
    (∀ r, fnResult = Except.ok r →
      submit_dispatch (workerRun fnResult) = CallbackCall.onSuccess r) ∧
    (∀ e, fnResult = Except.error e →
      submit_dispatch (workerRun fnResult) = CallbackCall.onFailure (str_of_error e)) ∧
    (∀ m, str_of_error (PyError.otherError m) ≠ "") ∧
    (∀ r m, submit_dispatch (workerRun fnResult) = CallbackCall.onSuccess r →
      submit_dispatch (workerRun fnResult) ≠ CallbackCall.onFailure m) := by
  refine ⟨?_, ?_, ?_, ?_⟩
  · rintro r rfl
    rfl
  · rintro e rfl
    cases e <;> rfl
  · intro m h
    have hl : ("Nieoczekiwany błąd: " ++ m).length = ("" : String).length := by
      rw [show str_of_error (PyError.otherError m) = "Nieoczekiwany błąd: " ++ m from rfl] at h
      rw [h]
    rw [String.length_append] at hl
    have h20 : ("Nieoczekiwany błąd: " : String).length = 20 := by decide
    have h0 : ("" : String).length = 0 := by decide
    omega
  · intro r m hs hf
    rw [hs] at hf
    exact CallbackCall.noConfusion hf

/-- Concrete instance of the amended C6 theorem: a completing task invokes
the success callback with its result and cannot also invoke the failure
callback. -/
theorem submit_dispatch_spec_witness :
    submit_dispatch (workerRun (Except.ok 3 : Except PyError Nat)) =
      CallbackCall.onSuccess 3 ∧
    str_of_error (PyError.otherError "boom") ≠ "" :=
  ⟨(submit_dispatch_spec Nat (Except.ok 3)).1 3 rfl,
   (submit_dispatch_spec Nat (Except.ok 3)).2.2.1 "boom"⟩


/-- Does the character list `n` occur at the head of `h`? (helper for the
Python `token in message` substring test). -/
def hasPre : List Char → List Char → Bool
  | [], _ => true
  | _ :: _, [] => false
  | a :: n, b :: h => a == b && hasPre n h

/-- Does the character list `n` occur anywhere inside `h`? -/
def hasSub (n : List Char) : List Char → Bool
  | [] => n.isEmpty
  | b :: h => hasPre n (b :: h) || hasSub n h

/-- Embedding of Python's `needle in hay` substring operator. -/
def pyIn (needle hay : String) : Bool :=
  hasSub needle.data hay.data

/-- Is the character one of those Python `str.strip` removes? -/
def isStripChar (c : Char) : Bool :=
  c = ' ' ∨ c = '\t' ∨ c = '\n' ∨ c = '\r' ∨ c = '\x0b' ∨ c = '\x0c'

/-- Embedding of Python `str.strip()`: whitespace removed from both ends. -/
def pyStrip (s : String) : String :=
  String.mk (((s.data.dropWhile isStripChar).reverse.dropWhile isStripChar).reverse)

/-- Embedding of Python `a or b` on strings: `a` when truthy, else `b`. -/
def pyOr (a b : String) : String :=
  if a ≠ "" then a else b

/-- Result of one `_run` invocation (src/tailscale_client.py lines 17-22):
exit code, stdout and stderr; a timed-out subprocess yields code 124. -/
structure RunResult where
  code : Int
  out : String
  err : String
deriving DecidableEq

/-- The permission-related tokens of
`TailscaleClient._should_retry_with_sudo` (src/tailscale_client.py lines
237-244). -/
def sudo_retry_tokens : List String :=
  ["permission denied", "must be root", "requires root", "requires sudo",
   "sudo", "operation not permitted"]

/-- Embedding of `TailscaleClient._should_retry_with_sudo`
(src/tailscale_client.py lines 232-245): never retry on exit code 0 or on
the timeout code 124; otherwise retry exactly when the lowercased message
contains one of the permission-related tokens. -/
def should_retry_with_sudo (exitCode : Int) (message : String) : Bool :=
  if exitCode = 0 ∨ exitCode = 124 then false
  else sudo_retry_tokens.any (fun t => pyIn t (pyLower message))

/-- Outcome of a call into the client: a normal return or a raised
`TailscaleError` carrying its message. -/
inductive CallOutcome where
  | ok
  | raised (msg : String)
deriving DecidableEq

/-- Trace of one `TailscaleClient.set_exit_node` call (src/tailscale_client.py
lines 202-230): whether the sudo-prefixed second attempt ran, and the
overall outcome. -/
structure SetExitNodeTrace where
  sudoAttempted : Bool
  result : CallOutcome
deriving DecidableEq

/-- Embedding of `TailscaleClient.set_exit_node`. The two `_run` calls are
oracles: `firstRes` is what the base command returns and `sudoRes` what
the sudo-prefixed command would return; `sudoPath` is `shutil.which('sudo')`.
The command argument itself only affects the command line, not the
control flow, and is omitted. -/
def set_exit_node (allowSudo : Bool) (firstRes : RunResult)
    (sudoPath : Option String) (sudoRes : RunResult) : SetExitNodeTrace :=
  if firstRes.code = 0 then ⟨false, .ok⟩
  else
    let combined := pyStrip (pyOr firstRes.err (pyOr firstRes.out ""))
    if allowSudo &&
        should_retry_with_sudo firstRes.code combined &&
        sudoPath.isSome then
      if sudoRes.code = 0 then ⟨true, .ok⟩
      else
        ⟨true, .raised ("Błąd ustawiania exit node: " ++
          pyStrip (pyOr sudoRes.err (pyOr sudoRes.out combined)))⟩
    else ⟨false, .raised ("Błąd ustawiania exit node: " ++ combined)⟩

/-- C10: `set_exit_node` raises an error iff its final attempt returned a
non-zero exit code; the single sudo retry happens exactly when the first
attempt failed with a non-zero code that is not the timeout code 124,
whose message contains a permission-related token, while sudo is allowed
and available; in particular a timed-out (124) first attempt is never
retried with sudo. -/
theorem set_exit_node_spec (allowSudo : Bool) (firstRes : RunResult)
    (sudoPath : Option String) (sudoRes : RunResult) :
    ((set_exit_node allowSudo firstRes sudoPath sudoRes).result = CallOutcome.ok ↔
      (if (set_exit_node allowSudo firstRes sudoPath sudoRes).sudoAttempted then
        sudoRes.code = 0 else firstRes.code = 0)) ∧
    ((set_exit_node allowSudo firstRes sudoPath sudoRes).sudoAttempted =
      (decide (firstRes.code ≠ 0) &&
        (allowSudo &&
          should_retry_with_sudo firstRes.code
            (pyStrip (pyOr firstRes.err (pyOr firstRes.out ""))) &&
          sudoPath.isSome))) ∧
    (firstRes.code = 124 →
      (set_exit_node allowSudo firstRes sudoPath sudoRes).sudoAttempted = false) := by
  by_cases h0 : firstRes.code = 0
  · refine ⟨?_, ?_, ?_⟩
    · simp [set_exit_node, h0]
    · simp [set_exit_node, h0]
    · intro h124
      simp [set_exit_node, h0]
  · by_cases hretry : (allowSudo &&
        should_retry_with_sudo firstRes.code
          (pyStrip (pyOr firstRes.err (pyOr firstRes.out ""))) &&
        sudoPath.isSome) = true
    · by_cases hs : sudoRes.code = 0
      · refine ⟨?_, ?_, ?_⟩
        · simp [set_exit_node, h0, hretry, hs]
        · simp [set_exit_node, h0, hretry, hs]
        · intro h124
          have hfalse : should_retry_with_sudo firstRes.code
              (pyStrip (pyOr firstRes.err (pyOr firstRes.out ""))) = false := by
            simp [should_retry_with_sudo, h124]
          rw [hfalse] at hretry
          simp at hretry
      · refine ⟨?_, ?_, ?_⟩
        · simp [set_exit_node, h0, hretry, hs]
        · simp [set_exit_node, h0, hretry, hs]
        · intro h124
          have hfalse : should_retry_with_sudo firstRes.code
              (pyStrip (pyOr firstRes.err (pyOr firstRes.out ""))) = false := by
            simp [should_retry_with_sudo, h124]
          rw [hfalse] at hretry
          simp at hretry
    · have hretryF : (allowSudo &&
          should_retry_with_sudo firstRes.code
            (pyStrip (pyOr firstRes.err (pyOr firstRes.out ""))) &&
          sudoPath.isSome) = false := by
        revert hretry
        cases (allowSudo &&
          should_retry_with_sudo firstRes.code
            (pyStrip (pyOr firstRes.err (pyOr firstRes.out ""))) &&
          sudoPath.isSome) <;> simp
      refine ⟨?_, ?_, ?_⟩
      · simp [set_exit_node, h0, hretryF]
      · simp [set_exit_node, h0, hretryF]
      · intro h124
        simp [set_exit_node, h0, hretryF]

/-- Concrete instance of the C10 theorem: a timed-out first attempt (code
124 with a sudo-suggesting message) is not retried with sudo even though
sudo is allowed and available. -/
theorem set_exit_node_spec_witness :
    (set_exit_node true ⟨124, "", "Timeout: requires sudo"⟩
      (some "/usr/bin/sudo") ⟨0, "", ""⟩).sudoAttempted = false :=
  (set_exit_node_spec true ⟨124, "", "Timeout: requires sudo"⟩
      (some "/usr/bin/sudo") ⟨0, "", ""⟩).2.2 rfl

/-- State of the Interaction Debouncer of `MainWindow` (src/gui.py lines
100-103, 1218-1231): the single-shot `_interaction_timer` is modelled by
the absolute time at which it will fire (`none` when inactive),
`lastRefreshTs` is `_last_refresh_ts`, and `refreshes` is a ghost list of
the times at which this mechanism performed a refresh. -/
structure DebounceState where
  timerDeadline : Option Int
  lastRefreshTs : Option Int
  refreshes : List Int
deriving DecidableEq

/-- The debouncer's initial state: timer inactive, no refresh recorded. -/
def initDebounce : DebounceState :=
  ⟨none, none, []⟩

/-- Embedding of `MainWindow._schedule_interaction_refresh` (src/gui.py
lines 1218-1221): when the timer is not active, start it for 350 ms
(`INTERACTION_DEBOUNCE_MS`); otherwise leave it counting down. -/
def schedule_interaction_refresh (now : Int) (s : DebounceState) : DebounceState :=
  match s.timerDeadline with
  | some _ => s
  | none => { s with timerDeadline := some (now + 350) }

/-- A completed `refresh_status(force=True)` at time `now`, which records
`_last_refresh_ts = time.time()` (src/gui.py line 1022). -/
def perform_refresh (now : Int) (s : DebounceState) : DebounceState :=
  { timerDeadline := none
    lastRefreshTs := some now
    refreshes := s.refreshes ++ [now] }

/-- Embedding of `MainWindow._interaction_refresh` (src/gui.py lines
1223-1231), run when the single-shot timer fires at `now`: if less than
0.8 s (800 ms) passed since the last completed refresh, restart the timer
for 300 ms without refreshing; otherwise perform the refresh. -/
def interaction_refresh (now : Int) (s : DebounceState) : DebounceState :=
  match s.lastRefreshTs with
  | some last =>
    if now - last < 800 then { s with timerDeadline := some (now + 300) }
    else perform_refresh now { s with timerDeadline := none }
  | none => perform_refresh now { s with timerDeadline := none }

/-- An event driving the debouncer: a qualifying user interaction
(`notify`) or the firing of the pending single-shot timer (`fire`). -/
inductive DebEvent where
  | notify (t : Int)
  | fire (t : Int)
deriving DecidableEq

/-- One debouncer transition. -/
def debStep (s : DebounceState) : DebEvent → DebounceState
  | .notify t => schedule_interaction_refresh t s
  | .fire t => interaction_refresh t s

/-- The debouncer state after a trace of events from the initial state. -/
def runDeb (events : List DebEvent) : DebounceState :=
  events.foldl debStep initDebounce

/-- Consecutive refreshes are at least 800 ms apart. -/
def spaced (l : List Int) : Prop :=
  l.Chain' (fun a b => a + 800 ≤ b)

lemma debStep_preserves (s : DebounceState) (e : DebEvent)
    (h1 : s.lastRefreshTs = s.refreshes.getLast?) (h2 : spaced s.refreshes) :
    (debStep s e).lastRefreshTs = (debStep s e).refreshes.getLast? ∧
      spaced (debStep s e).refreshes := by
  obtain ⟨td, lr, rf⟩ := s
  cases e with
  | notify t =>
    dsimp only [debStep, schedule_interaction_refresh]
    cases td <;> exact ⟨h1, h2⟩
  | fire t =>
    dsimp only [debStep, interaction_refresh]
    cases lr with
    | none =>
      dsimp only
      have hnil : rf = [] := by
        cases rf with
        | nil => rfl
        | cons x xs => simp [List.getLast?] at h1
      subst hnil
      dsimp only [perform_refresh]
      exact ⟨rfl, by simp [spaced]⟩
    | some last =>
      dsimp only
      have hlast : rf.getLast? = some last := h1.symm
      by_cases hlt : t - last < 800
      · simp only [if_pos hlt]
        exact ⟨h1, h2⟩
      · simp only [if_neg hlt]
        dsimp only [perform_refresh]
        refine ⟨by simp, ?_⟩
        unfold spaced at h2 ⊢
        dsimp only at h2 ⊢
        rw [List.chain'_append]
        refine ⟨h2, List.chain'_singleton _, ?_⟩
        intro x hx y hy
        rw [List.head?_cons, Option.mem_def, Option.some_inj] at hy
        subst hy
        rw [Option.mem_def, hlast, Option.some_inj] at hx
        subst hx
        omega

lemma foldl_debStep_preserves (events : List DebEvent) (s : DebounceState)
    (h1 : s.lastRefreshTs = s.refreshes.getLast?) (h2 : spaced s.refreshes) :
    (events.foldl debStep s).lastRefreshTs =
      (events.foldl debStep s).refreshes.getLast? ∧
      spaced (events.foldl debStep s).refreshes := by
  induction events generalizing s with
  | nil => exact ⟨h1, h2⟩
  | cons e rest ih =>
    rw [List.foldl_cons]
    have h := debStep_preserves s e h1 h2
    exact ih (debStep s e) h.1 h.2

lemma notify_on_active (t : Int) (s : DebounceState)
    (h : s.timerDeadline.isSome) : debStep s (DebEvent.notify t) = s := by
  show schedule_interaction_refresh t s = s
  unfold schedule_interaction_refresh
  cases hd : s.timerDeadline with
  | some d => rfl
  | none => rw [hd] at h; simp at h

/-- C9: a burst of `notify()` calls within 50 ms of the first schedules
exactly one delayed refresh — the whole burst after the first call leaves
the state unchanged, and the pending timer fires 350 ms after the first
call, hence no earlier than 350 ms after it; a delayed refresh firing less
than 800 ms after the last completed refresh performs no refresh and only
restarts the timer for 300 ms; and along any trace of debouncer events the
refreshes this mechanism performs are never closer than 800 ms apart. -/
theorem interaction_debouncer_spec :
    (∀ (t0 : Int) (ts : List Int) (s : DebounceState), s.timerDeadline = none →
      (∀ t ∈ ts, t0 ≤ t ∧ t ≤ t0 + 50) →
      (ts.map DebEvent.notify).foldl debStep (debStep s (DebEvent.notify t0)) =
        debStep s (DebEvent.notify t0) ∧
      (debStep s (DebEvent.notify t0)).timerDeadline = some (t0 + 350)) ∧
    (∀ (now last : Int) (s : DebounceState), s.lastRefreshTs = some last →
      now - last < 800 →
      interaction_refresh now s = { s with timerDeadline := some (now + 300) }) ∧
    (∀ events : List DebEvent, spaced (runDeb events).refreshes) := by
  refine ⟨?_, ?_, ?_⟩
  · intro t0 ts s hnone hb
    clear hb
    have hsched : debStep s (DebEvent.notify t0) =
        { s with timerDeadline := some (t0 + 350) } := by
      show schedule_interaction_refresh t0 s = _
      unfold schedule_interaction_refresh
      rw [hnone]
    refine ⟨?_, by rw [hsched]⟩
    rw [hsched]
    induction ts with
    | nil => rfl
    | cons t rest ih =>
      simp only [List.map_cons, List.foldl_cons]
      rw [notify_on_active t _ (by simp)]
      exact ih
  · intro now last s hlast hlt
    obtain ⟨td, lr, rf⟩ := s
    have hlr : lr = some last := hlast
    subst hlr
    show (if now - last < 800 then _ else _ : DebounceState) = _
    rw [if_pos hlt]
  · intro events
    exact (foldl_debStep_preserves events initDebounce rfl
      (by simp [initDebounce, spaced])).2

/-- Concrete instance of the C9 theorem: a burst of notifications at 0,
10 and 40 ms leaves one pending refresh scheduled for 350 ms, and a fire
at 500 ms after a refresh completed at 0 ms only reschedules to 800 ms. -/
theorem interaction_debouncer_spec_witness :
    ((([10, 40] : List Int).map DebEvent.notify).foldl debStep
        (debStep initDebounce (DebEvent.notify 0))).timerDeadline = some 350 ∧
    interaction_refresh 500 ⟨none, some 0, [0]⟩ =
      ({ timerDeadline := some 800, lastRefreshTs := some 0,
         refreshes := [0] } : DebounceState) := by
  constructor
  · have h := interaction_debouncer_spec.1 0 [10, 40] initDebounce rfl
      (by intro t ht; fin_cases ht <;> constructor <;> decide)
    rw [h.1, h.2]
    decide
  · have h := interaction_debouncer_spec.2.1 500 0 ⟨none, some 0, [0]⟩ rfl (by decide)
    rw [h]
    decide
